import Mathlib

/-!
Shallow embedding of `src/app.ts` (MuralScan).

The program is a single `App` class driving an AR mural viewer:
tracking-event handlers (`wayspotFound` / `wayspotUpdated` / `wayspotLost`)
compose a tracked pose with a per-wayspot calibration offset
(`applyOffset`), a per-frame `update` maintains a single selection from a
raycast hit list, and small DOM helpers (`displayCaption`, `displayDetail`,
`toggleDetail`, `deselect`) drive the caption/detail disclosure UI.

Modelling conventions:
- JS numbers carry no arithmetic in the modelled code (they are only
  copied between fields), so scalars are modelled as `ℚ`.
- `this.wayspotData` and `this.muralData` are `undefined` until their
  `fetch` resolves; both are modelled as `Option`, with `none` standing
  for `undefined`.  The JS expression `name in undefined` and the read
  `undefined.figures` throw a `TypeError`; operations that can throw
  return an `Option JsError` alongside the (partially mutated) state,
  mirroring that an exception aborts the rest of the handler body.
- THREE.js object identity (`newSelection != this.selected` compares
  references) is modelled by the `id` field of `Mesh`: every
  `THREE.Object3D` has a unique numeric `id`, so reference equality on
  meshes coincides with equality of `(id, name)` records.
- DOM writes and material writes are recorded as an ordered `Effect`
  list (for ordering claims) and, where later reads depend on them
  (caption/detail visibility and text), also mirrored in `AppState`.
-/

namespace MuralScan

/-- Component-wise model of `THREE.Vector3` (values are only copied). -/
structure Vec3 where
  x : ℚ
  y : ℚ
  z : ℚ
deriving DecidableEq, Repr

/-- Component-wise model of `THREE.Euler` (values are only copied). -/
structure EulerAngles where
  x : ℚ
  y : ℚ
  z : ℚ
deriving DecidableEq, Repr

/-- Component-wise model of `THREE.Quaternion` (values are only copied). -/
structure Quat where
  x : ℚ
  y : ℚ
  z : ℚ
  w : ℚ
deriving DecidableEq, Repr

/-- The `Offset` interface of `app.ts`: position, rotation, scale. -/
structure Offset where
  position : Vec3
  rotation : EulerAngles
  scale : Vec3
deriving DecidableEq, Repr

/-- The fetched wayspot calibration document: a JS object mapping wayspot
name to an entry holding an `offset`.  JS object keys are unique; an
association list with first-match lookup models property access. -/
abbrev WayspotStore := List (String × Offset)

/-- `wayspotName in this.wayspotData` / `this.wayspotData[wayspotName].offset`
on a loaded store: property lookup by exact key match. -/
def lookupOffset (store : WayspotStore) (name : String) : Option Offset :=
  (store.find? (fun p => p.1 = name)).map Prod.snd

/-- The `FigureData` record of the mural document. -/
structure FigureData where
  tag : String
  caption : String
  detail : String
deriving DecidableEq, Repr

/-- The `MuralData` record: `scale` (defaulted to 1 after fetch) and the
ordered `figures` list. -/
structure MuralData where
  scale : ℚ
  figures : List FigureData
deriving DecidableEq, Repr

/-- A pickable `THREE.Mesh` as the selection logic sees it: its unique
THREE object id (standing for reference identity) and its `name`. -/
structure Mesh where
  id : ℕ
  name : String
deriving DecidableEq, Repr

/-- Transform state of the `rootContainer` group (content container):
`position`, `rotation` (Euler), `scale`, and the `visible` flag. -/
structure GroupState where
  position : Vec3
  rotation : EulerAngles
  scale : Vec3
  visible : Bool
deriving DecidableEq, Repr

/-- Pose state of the `origin` group (world anchor pose). -/
structure OriginState where
  position : Vec3
  quaternion : Quat
deriving DecidableEq, Repr

/-- The mutable fields of the `App` instance that the modelled methods
read or write, plus the DOM visibility/text the UI helpers maintain. -/
structure AppState where
  wayspotData : Option WayspotStore
  muralData : Option MuralData
  origin : OriginState
  rootContainer : GroupState
  selected : Option Mesh
  captionVisible : Bool
  detailVisible : Bool
  captionText : String
  detailText : String
deriving DecidableEq, Repr

/-- A thrown JS exception; the only kind the modelled code can raise is
`TypeError` (property access on `undefined`). -/
inductive JsError where
  | typeError
deriving DecidableEq, Repr

/-- Observable side effects on collaborators (material opacity writes,
DOM visibility/text writes, log lines), in program order. -/
inductive Effect where
  | setOpacity (mesh : Mesh) (value : ℚ)
  | displayCaption (visible : Bool)
  | displayDetail (visible : Bool)
  | setCaptionText (text : String)
  | setDetailText (text : String)
  | logMsg (text : String)
  | logFigure (fd : Option FigureData)
  | logPosition (p : Vec3)
deriving DecidableEq, Repr

/-- Result of running one method body: final state, emitted effects in
order, and the exception that aborted the body, if any. -/
structure StepOut where
  state : AppState
  effects : List Effect
  error : Option JsError
deriving DecidableEq, Repr

/-- `THREE.Group` default transform: identity. -/
def identityGroup : GroupState :=
  { position := ⟨0, 0, 0⟩, rotation := ⟨0, 0, 0⟩, scale := ⟨1, 1, 1⟩,
    visible := true }

/-- State after `initialize`: both fetches unresolved (`undefined`
stores), fresh groups (`rootContainer.visible` is set to `false` when
`arMode`), no selection, caption and detail hidden, texts empty. -/
def initialState (arMode : Bool) : AppState :=
  { wayspotData := none,
    muralData := none,
    origin := { position := ⟨0, 0, 0⟩, quaternion := ⟨0, 0, 0, 1⟩ },
    rootContainer := { identityGroup with visible := !arMode },
    selected := none,
    captionVisible := false,
    detailVisible := false,
    captionText := "",
    detailText := "" }

/-- The highlight opacity `App.update` assigns to a newly selected mesh
(`.25` in the source). -/
def opacitySelected : ℚ := 1 / 4

/-- `App.deselect`: if a mesh is selected, reset its material opacity to
0; clear `selected`; hide the caption.  The detail element is not
touched. -/
def deselect (s : AppState) : AppState × List Effect :=
  let opacityEffects : List Effect :=
    match s.selected with
    | some m => [Effect.setOpacity m 0]
    | none => []
  ({ s with selected := none, captionVisible := false },
    opacityEffects ++ [Effect.displayCaption false])

/-- The loop body of `App.findFigure`: scan `figures` in order, return
the first entry whose `tag` equals the query, else `null`. -/
def findFigureLoop (figs : List FigureData) (tag : String) :
    Option FigureData :=
  match figs with
  | [] => none
  | f :: rest => if f.tag = tag then some f else findFigureLoop rest tag

/-- `App.findFigure`: reads `this.muralData.figures`; if `muralData` is
still `undefined` the property access throws a `TypeError`. -/
def findFigure (s : AppState) (tag : String) :
    Except JsError (Option FigureData) :=
  match s.muralData with
  | none => Except.error JsError.typeError
  | some md => Except.ok (findFigureLoop md.figures tag)

/-- The effects of the selection branch of `App.update` once the picked
mesh differs from the current selection: highlight the pick, log its
name, log the looked-up figure, and when a figure was found show the
caption and install both texts (then log the figure again, as the
source does). -/
def selectEffects (pick : Mesh) (fd : Option FigureData) : List Effect :=
  [Effect.setOpacity pick opacitySelected, Effect.logMsg pick.name,
    Effect.logFigure fd] ++
    match fd with
    | none => []
    | some f =>
        [Effect.displayCaption true, Effect.setCaptionText f.caption,
          Effect.setDetailText f.detail, Effect.logFigure (some f)]

/-- `App.update`: one per-frame step.  `intersects` is the raycaster's
distance-ordered (nearest-first) hit list; the code reads
`intersects[intersects.length - 1]`, i.e. the last entry.  If the list
is empty, deselect.  If the pick is reference-equal to the current
selection, do nothing.  Otherwise deselect, select the pick, set its
highlight, resolve its name against the mural figures (which throws if
`muralData` is `undefined`), and on a hit show caption/detail text. -/
def update (s : AppState) (intersects : List Mesh) : StepOut :=
  match intersects.getLast? with
  | none =>
      let d := deselect s
      ⟨d.1, d.2, none⟩
  | some pick =>
      if some pick = s.selected then ⟨s, [], none⟩
      else
        let d := deselect s
        let s2 := { d.1 with selected := some pick }
        match findFigure s2 pick.name with
        | Except.error e =>
            ⟨s2, d.2 ++ [Effect.setOpacity pick opacitySelected,
              Effect.logMsg pick.name], some e⟩
        | Except.ok fd =>
            match fd with
            | none => ⟨s2, d.2 ++ selectEffects pick none, none⟩
            | some f =>
                ⟨{ s2 with
                    captionVisible := true,
                    captionText := f.caption,
                    detailText := f.detail },
                  d.2 ++ selectEffects pick (some f), none⟩

/-- `App.displayDetail false`, as run by the detail element's click
listener (a tap on the visible detail text). -/
def tapDetail (s : AppState) : AppState × List Effect :=
  ({ s with detailVisible := false }, [Effect.displayDetail false])

/-- `App.toggleDetail`, as run by the caption element's click listener:
read the detail element's visibility and flip it. -/
def toggleDetail (s : AppState) : AppState × List Effect :=
  ({ s with detailVisible := !s.detailVisible },
    [Effect.displayDetail !s.detailVisible])

/-- `App.applyOffset`: `wayspotName in this.wayspotData` throws a
`TypeError` while `wayspotData` is `undefined`; on a loaded store, a
present entry has its offset's position/rotation/scale copied onto the
`rootContainer`, and an absent entry leaves the container untouched. -/
def applyOffset (s : AppState) (wayspotName : String) :
    AppState × Option JsError :=
  match s.wayspotData with
  | none => (s, some JsError.typeError)
  | some store =>
      match lookupOffset store wayspotName with
      | none => (s, none)
      | some off =>
          ({ s with rootContainer :=
              { s.rootContainer with
                  position := off.position,
                  rotation := off.rotation,
                  scale := off.scale } }, none)

/-- The `detail` payload of an 8th Wall tracking event. -/
structure TrackDetail where
  name : String
  position : Vec3
  rotation : Quat
deriving DecidableEq, Repr

/-- `App.wayspotFound`: log, apply the calibration offset (the thrown
`TypeError` aborts the rest of the handler), copy the tracked pose onto
`origin`, and show the content root. -/
def wayspotFound (s : AppState) (ev : TrackDetail) : StepOut :=
  let logs := [Effect.logMsg ("WAYSPOT FOUND:" ++ ev.name),
    Effect.logPosition ev.position]
  match applyOffset s ev.name with
  | (s1, some e) => ⟨s1, logs, some e⟩
  | (s1, none) =>
      ⟨{ s1 with
          origin := { position := ev.position, quaternion := ev.rotation },
          rootContainer := { s1.rootContainer with visible := true } },
        logs, none⟩

/-- `App.wayspotUpdated`: same pose/offset recomputation as `found`,
visibility forced true. -/
def wayspotUpdated (s : AppState) (ev : TrackDetail) : StepOut :=
  let logs := [Effect.logMsg "WAYSPOT UPDATED"]
  match applyOffset s ev.name with
  | (s1, some e) => ⟨s1, logs, some e⟩
  | (s1, none) =>
      ⟨{ s1 with
          origin := { position := ev.position, quaternion := ev.rotation },
          rootContainer := { s1.rootContainer with visible := true } },
        logs, none⟩

/-- `App.wayspotLost`: same pose/offset recomputation, but the content
root is hidden. -/
def wayspotLost (s : AppState) (ev : TrackDetail) : StepOut :=
  let logs := [Effect.logMsg "WAYSPOT LOST"]
  match applyOffset s ev.name with
  | (s1, some e) => ⟨s1, logs, some e⟩
  | (s1, none) =>
      ⟨{ s1 with
          origin := { position := ev.position, quaternion := ev.rotation },
          rootContainer := { s1.rootContainer with visible := false } },
        logs, none⟩

/-- The three tracking event kinds. -/
inductive TrackKind where
  | found
  | updated
  | lost
deriving DecidableEq, Repr

/-- Dispatch a tracking event to its handler. -/
def handleTracking : TrackKind → AppState → TrackDetail → StepOut
  | TrackKind.found => wayspotFound
  | TrackKind.updated => wayspotUpdated
  | TrackKind.lost => wayspotLost

/-- Run `update` for `n` consecutive frames against the same hit list,
accumulating the emitted effects in order. -/
def runFrames (s : AppState) (intersects : List Mesh) :
    Nat → AppState × List Effect
  | 0 => (s, [])
  | n + 1 =>
      let out := update s intersects
      let rest := runFrames out.state intersects n
      (rest.1, out.effects ++ rest.2)

/-! ### Concrete fixtures (the worked examples of the development) -/

/-- A two-figure mural document. -/
def exMural : MuralData :=
  ⟨1, [⟨"fig1", "A", "Long A"⟩, ⟨"fig2", "B", "Long B"⟩]⟩

/-- A calibration offset moving the container to x = 1. -/
def exOffset : Offset := ⟨⟨1, 0, 0⟩, ⟨0, 0, 0⟩, ⟨1, 1, 1⟩⟩

/-- A one-entry calibration store for wayspot `wp1`. -/
def exStore : WayspotStore := [("wp1", exOffset)]

/-- A pickable mesh named after the first figure. -/
def exMeshA : Mesh := ⟨5, "fig1"⟩

/-- A pickable mesh named after the second figure. -/
def exMeshB : Mesh := ⟨6, "fig2"⟩

/-- A tracking event payload for wayspot `wp1`. -/
def exEvent : TrackDetail := ⟨"wp1", ⟨2, 3, 4⟩, ⟨0, 0, 0, 1⟩⟩

/-- The post-initialize state after both fetches have resolved. -/
def exLoaded : AppState :=
  { initialState false with
      muralData := some exMural,
      wayspotData := some exStore }

/-! ### Helper lemmas about `update` and `runFrames` -/

/-- Picking the mesh that is already selected leaves the state untouched
and emits nothing. -/
lemma update_noop (s : AppState) (l : List Mesh) (pick : Mesh)
    (h : l.getLast? = some pick) (hs : s.selected = some pick) :
    update s l = ⟨s, [], none⟩ := by
  unfold update
  rw [h]
  simp [hs]

/-- After a frame with a non-empty hit list, the last hit is selected. -/
lemma update_state_selected (s : AppState) (l : List Mesh) (pick : Mesh)
    (h : l.getLast? = some pick) :
    (update s l).state.selected = some pick := by
  unfold update
  rw [h]
  by_cases hc : some pick = s.selected
  · have hs : s.selected = some pick := hc.symm
    simp [hs]
  · simp only [if_neg hc]
    cases hmd : s.muralData with
    | none => simp [findFigure, deselect, hmd]
    | some md =>
        cases hfd : findFigureLoop md.figures pick.name <;>
          simp [findFigure, deselect, hmd, hfd]

/-- Once the pick is already selected, any number of further frames on
the same hit list is a no-op. -/
lemma runFrames_of_selected (l : List Mesh) (pick : Mesh)
    (h : l.getLast? = some pick) :
    ∀ n (t : AppState), t.selected = some pick → runFrames t l n = (t, []) := by
  intro n
  induction n with
  | zero => intro t _; rfl
  | succ k ih =>
      intro t ht
      have hstep := update_noop t l pick h ht
      simp [runFrames, hstep, ih t ht]

/-- Full description of a frame in which the pick differs from the
current selection: effects are the deselect effects followed by the
select effects, no exception is raised (the mural being loaded), the
pick becomes selected, the caption is visible exactly when the figure
lookup hits, detail visibility is untouched, and on a lookup hit both
texts are installed. -/
lemma update_change_spec (s : AppState) (l : List Mesh) (pick : Mesh)
    (md : MuralData) (h : l.getLast? = some pick)
    (hne : some pick ≠ s.selected) (hmd : s.muralData = some md) :
    (update s l).effects =
        (deselect s).2 ++ selectEffects pick (findFigureLoop md.figures pick.name) ∧
    (update s l).error = none ∧
    (update s l).state.selected = some pick ∧
    (update s l).state.captionVisible =
        (findFigureLoop md.figures pick.name).isSome ∧
    (update s l).state.detailVisible = s.detailVisible ∧
    (∀ f, findFigureLoop md.figures pick.name = some f →
        (update s l).state.captionText = f.caption ∧
        (update s l).state.detailText = f.detail) := by
  unfold update
  rw [h]
  simp only [if_neg hne]
  cases hfd : findFigureLoop md.figures pick.name <;>
    simp [findFigure, deselect, hmd, hfd, selectEffects]

/-- The deselect effects when a mesh is currently selected. -/
lemma deselect_effects_of_selected (s : AppState) (old : Mesh)
    (hold : s.selected = some old) :
    (deselect s).2 = [Effect.setOpacity old 0, Effect.displayCaption false] := by
  simp [deselect, hold]

/-- A successful figure lookup returns the first figure of the list, in
order, whose tag matches exactly. -/
lemma findFigureLoop_eq_some (figs : List FigureData) (tag : String)
    (f : FigureData) (hf : findFigureLoop figs tag = some f) :
    f.tag = tag ∧
      ∃ pre post, figs = pre ++ f :: post ∧ ∀ g ∈ pre, g.tag ≠ tag := by
  induction figs with
  | nil => simp [findFigureLoop] at hf
  | cons a rest ih =>
      by_cases ha : a.tag = tag
      · simp [findFigureLoop, ha] at hf
        subst hf
        exact ⟨ha, [], rest, rfl, by simp⟩
      · simp [findFigureLoop, ha] at hf
        obtain ⟨h1, pre, post, heq, hpre⟩ := ih hf
        refine ⟨h1, a :: pre, post, by rw [heq]; rfl, ?_⟩
        intro g hg
        rcases List.mem_cons.mp hg with hg | hg
        · rw [hg]; exact ha
        · exact hpre g hg

/-- The figure lookup misses exactly when no figure's tag matches. -/
lemma findFigureLoop_eq_none (figs : List FigureData) (tag : String) :
    findFigureLoop figs tag = none ↔ ∀ g ∈ figs, g.tag ≠ tag := by
  induction figs with
  | nil => simp [findFigureLoop]
  | cons a rest ih =>
      by_cases ha : a.tag = tag
      · simp [findFigureLoop, ha]
      · simp [findFigureLoop, ha, ih]

/-! ### The claims -/

/-- Claim C1: for every tracking event kind (Found, Updated, Lost)
carrying wayspot name `ev.name`, if the name has an entry in the loaded
calibration store then the content container's position, rotation and
scale are set to that entry's offset fields, and if the name has no
entry (including the store being still unloaded) the container's
transform is left unchanged from its prior value. -/
theorem tracking_event_applies_calibration (kind : TrackKind)
    (s : AppState) (ev : TrackDetail) :
    (∀ store off, s.wayspotData = some store →
        lookupOffset store ev.name = some off →
          (handleTracking kind s ev).state.rootContainer.position = off.position ∧
          (handleTracking kind s ev).state.rootContainer.rotation = off.rotation ∧
          (handleTracking kind s ev).state.rootContainer.scale = off.scale) ∧
    ((∀ store, s.wayspotData = some store → lookupOffset store ev.name = none) →
          (handleTracking kind s ev).state.rootContainer.position =
            s.rootContainer.position ∧
          (handleTracking kind s ev).state.rootContainer.rotation =
            s.rootContainer.rotation ∧
          (handleTracking kind s ev).state.rootContainer.scale =
            s.rootContainer.scale) := by
  constructor
  · intro store off hs hl
    cases kind <;>
      simp [handleTracking, wayspotFound, wayspotUpdated, wayspotLost,
        applyOffset, hs, hl]
  · intro habs
    cases hs : s.wayspotData with
    | none =>
        cases kind <;>
          simp [handleTracking, wayspotFound, wayspotUpdated, wayspotLost,
            applyOffset, hs]
    | some store =>
        have hl := habs store hs
        cases kind <;>
          simp [handleTracking, wayspotFound, wayspotUpdated, wayspotLost,
            applyOffset, hs, hl]

/-- Witness for C1 at a concrete input: a Found event for `wp1` against
the loaded store copies the `wp1` offset onto the container. -/
theorem tracking_event_applies_calibration_witness :
    (exLoaded.wayspotData = some exStore ∧
      lookupOffset exStore "wp1" = some exOffset) ∧
    ((handleTracking TrackKind.found exLoaded exEvent).state.rootContainer.position =
        exOffset.position ∧
      (handleTracking TrackKind.found exLoaded exEvent).state.rootContainer.rotation =
        exOffset.rotation ∧
      (handleTracking TrackKind.found exLoaded exEvent).state.rootContainer.scale =
        exOffset.scale) :=
  ⟨⟨by decide, by decide⟩,
    (tracking_event_applies_calibration TrackKind.found exLoaded exEvent).1
      exStore exOffset (by decide) (by decide)⟩

/-- Claim C2 (code behavior at the failing input): while the stores are
still unloaded (`undefined`), every tracking handler throws a
`TypeError` from `wayspotName in this.wayspotData`, and a frame update
whose hit list is non-empty throws a `TypeError` from
`this.muralData.figures` — reading the unloaded stores is not treated
as a key-not-found lookup. -/
theorem unloaded_store_reads_throw :
    (wayspotFound (initialState true) exEvent).error = some JsError.typeError ∧
    (wayspotUpdated (initialState true) exEvent).error = some JsError.typeError ∧
    (wayspotLost (initialState true) exEvent).error = some JsError.typeError ∧
    (update (initialState true) [exMeshA]).error = some JsError.typeError := by
  decide

/-- Claim C8: after Found or Updated the content root is visible, after
Lost it is hidden, whether or not the loaded store has an entry for the
event's wayspot name. -/
theorem tracking_visibility (s : AppState) (ev : TrackDetail)
    (store : WayspotStore) (h : s.wayspotData = some store) :
    (wayspotFound s ev).state.rootContainer.visible = true ∧
    (wayspotUpdated s ev).state.rootContainer.visible = true ∧
    (wayspotLost s ev).state.rootContainer.visible = false := by
  cases hl : lookupOffset store ev.name <;>
    simp [wayspotFound, wayspotUpdated, wayspotLost, applyOffset, h, hl]

/-- Witness for C8 at a concrete input: a wayspot absent from the loaded
store (`wp2`) still toggles visibility. -/
theorem tracking_visibility_witness :
    exLoaded.wayspotData = some exStore ∧
    ((wayspotFound exLoaded ⟨"wp2", ⟨0, 0, 0⟩, ⟨0, 0, 0, 1⟩⟩).state.rootContainer.visible = true ∧
      (wayspotUpdated exLoaded ⟨"wp2", ⟨0, 0, 0⟩, ⟨0, 0, 0, 1⟩⟩).state.rootContainer.visible = true ∧
      (wayspotLost exLoaded ⟨"wp2", ⟨0, 0, 0⟩, ⟨0, 0, 0, 1⟩⟩).state.rootContainer.visible = false) :=
  ⟨by decide,
    tracking_visibility exLoaded ⟨"wp2", ⟨0, 0, 0⟩, ⟨0, 0, 0, 1⟩⟩ exStore (by decide)⟩

/-- Claim C5: for every non-empty, distance-ordered (nearest-first) hit
list, the frame update selects the last entry (the farthest
intersection), never a distinct first entry. -/
theorem selection_picks_farthest (s : AppState) (l : List Mesh)
    (pick : Mesh) (h : l.getLast? = some pick) :
    (update s l).state.selected = some pick ∧
    ∀ m, l.head? = some m → m ≠ pick →
      (update s l).state.selected ≠ some m := by
  refine ⟨update_state_selected s l pick h, ?_⟩
  intro m _ hm hcontra
  rw [update_state_selected s l pick h] at hcontra
  exact hm (Option.some.inj hcontra).symm

/-- Witness for C5 at a concrete input: with the nearest-first list
`[near, far]` the update selects `far`, not `near`. -/
theorem selection_picks_farthest_witness :
    ([exMeshA, exMeshB].getLast? = some exMeshB) ∧
    ((update exLoaded [exMeshA, exMeshB]).state.selected = some exMeshB ∧
      ∀ m, [exMeshA, exMeshB].head? = some m → m ≠ exMeshB →
        (update exLoaded [exMeshA, exMeshB]).state.selected ≠ some m) :=
  ⟨by decide, selection_picks_farthest exLoaded [exMeshA, exMeshB] exMeshB (by decide)⟩

/-- The state after selecting the first figure and tapping the caption:
caption and detail are both visible. -/
def exDetailOpen : AppState := (toggleDetail (update exLoaded [exMeshA]).state).1

/-- The state after selecting the first figure (detail still hidden). -/
def exSelectedA : AppState := (update exLoaded [exMeshA]).state

/-- A second mesh object with a fresh THREE id but the same `name` as
`exMeshA`. -/
def exMeshA2 : Mesh := ⟨9, "fig1"⟩

/-- Claim C3 counterexample: with the detail text disclosed, a Hide
event (`deselect`) hides the caption but leaves the detail element
visible — the UI is not brought to the all-hidden state — and a
subsequent TapDetail before any Select does change what is visible
(it hides the still-visible detail). -/
theorem hide_leaves_detail_visible :
    exDetailOpen.detailVisible = true ∧
    (deselect exDetailOpen).1.captionVisible = false ∧
    (deselect exDetailOpen).1.detailVisible = true ∧
    (tapDetail (deselect exDetailOpen).1).1.detailVisible = false := by
  decide

/-- Claim C3 as amended: a Hide event hides the caption and clears the
selection from any prior state, but leaves the detail element's
visibility unchanged; a subsequent TapDetail hides the detail, which is
a visible change whenever the detail was still visible. -/
theorem hide_resets_caption_not_detail (s : AppState) :
    (deselect s).1.captionVisible = false ∧
    (deselect s).1.selected = none ∧
    (deselect s).1.detailVisible = s.detailVisible ∧
    (tapDetail (deselect s).1).1.detailVisible = false := by
  simp [deselect, tapDetail]

/-- Claim C4 counterexample: with figure 1 selected and its detail
disclosed, a frame whose pick is the distinct mesh of figure 2 (whose
figure record is found) changes the selection but leaves the detail
element visible, now showing figure 2's detail text. -/
theorem selection_change_keeps_detail_visible :
    exDetailOpen.selected = some exMeshA ∧
    exDetailOpen.detailVisible = true ∧
    (update exDetailOpen [exMeshB]).state.selected = some exMeshB ∧
    findFigureLoop exMural.figures exMeshB.name = some ⟨"fig2", "B", "Long B"⟩ ∧
    (update exDetailOpen [exMeshB]).state.detailVisible = true ∧
    (update exDetailOpen [exMeshB]).state.detailText = "Long B" := by
  decide

/-- Claim C4 as amended: when the selection changes to a new item whose
figure record is found, the caption is shown with the new figure's
caption and the detail text is replaced by the new figure's detail, but
the detail element's visibility is left unchanged rather than reset to
hidden. -/
theorem selection_change_replaces_detail_text (s : AppState)
    (l : List Mesh) (pick : Mesh) (md : MuralData) (f : FigureData)
    (h : l.getLast? = some pick) (hne : some pick ≠ s.selected)
    (hmd : s.muralData = some md)
    (hf : findFigureLoop md.figures pick.name = some f) :
    (update s l).state.selected = some pick ∧
    (update s l).state.captionVisible = true ∧
    (update s l).state.captionText = f.caption ∧
    (update s l).state.detailText = f.detail ∧
    (update s l).state.detailVisible = s.detailVisible := by
  obtain ⟨_, _, hsel, hcap, hdet, htext⟩ :=
    update_change_spec s l pick md h hne hmd
  obtain ⟨hct, hdt⟩ := htext f hf
  refine ⟨hsel, ?_, hct, hdt, hdet⟩
  rw [hcap, hf, Option.isSome_some]

/-- Witness for the amended C4 at a concrete input: from the
detail-open state, picking figure 2's mesh replaces both texts and
keeps the detail visible. -/
theorem selection_change_replaces_detail_text_witness :
    ([exMeshB].getLast? = some exMeshB ∧
      some exMeshB ≠ exDetailOpen.selected ∧
      exDetailOpen.muralData = some exMural ∧
      findFigureLoop exMural.figures exMeshB.name = some ⟨"fig2", "B", "Long B"⟩) ∧
    ((update exDetailOpen [exMeshB]).state.selected = some exMeshB ∧
      (update exDetailOpen [exMeshB]).state.captionVisible = true ∧
      (update exDetailOpen [exMeshB]).state.captionText = "B" ∧
      (update exDetailOpen [exMeshB]).state.detailText = "Long B" ∧
      (update exDetailOpen [exMeshB]).state.detailVisible = exDetailOpen.detailVisible) :=
  ⟨⟨by decide, by decide, by decide, by decide⟩,
    selection_change_replaces_detail_text exDetailOpen [exMeshB] exMeshB
      exMural ⟨"fig2", "B", "Long B"⟩ (by decide) (by decide) (by decide)
      (by decide)⟩

/-- Claim C6: a frame whose farthest-first pick equals the current
selection emits no event, performs no transition and triggers no side
effect, so running any number of consecutive frames against the same
hit list produces exactly the effects of the first frame. -/
theorem reselect_same_is_idempotent (s : AppState) (l : List Mesh)
    (pick : Mesh) (h : l.getLast? = some pick) :
    (s.selected = some pick → update s l = ⟨s, [], none⟩) ∧
    ∀ n, runFrames s l (n + 1) =
      ((update s l).state, (update s l).effects) := by
  refine ⟨fun hs => update_noop s l pick h hs, fun n => ?_⟩
  have hsel := update_state_selected s l pick h
  simp [runFrames, runFrames_of_selected l pick h n _ hsel]

/-- Witness for C6 at a concrete input: three consecutive frames on
figure 1's mesh produce exactly the first frame's state and effects. -/
theorem reselect_same_is_idempotent_witness :
    ([exMeshA].getLast? = some exMeshA) ∧
    runFrames exLoaded [exMeshA] 3 =
      ((update exLoaded [exMeshA]).state, (update exLoaded [exMeshA]).effects) :=
  ⟨by decide,
    (reselect_same_is_idempotent exLoaded [exMeshA] exMeshA (by decide)).2 2⟩

/-- Claim C7: when the selection changes from mesh `old` to a different
pick in one frame, the Deselect side effects for `old` (opacity reset
to 0, caption hidden) come strictly before every Select side effect for
the pick (highlight, logs, caption texts). -/
theorem deselect_precedes_select (s : AppState) (l : List Mesh)
    (pick old : Mesh) (md : MuralData) (h : l.getLast? = some pick)
    (hold : s.selected = some old) (hne : pick ≠ old)
    (hmd : s.muralData = some md) :
    (update s l).effects =
      [Effect.setOpacity old 0, Effect.displayCaption false] ++
        selectEffects pick (findFigureLoop md.figures pick.name) := by
  have hne2 : some pick ≠ s.selected := by
    rw [hold]
    exact fun hcon => hne (Option.some.inj hcon)
  have hspec := update_change_spec s l pick md h hne2 hmd
  rw [hspec.1, deselect_effects_of_selected s old hold]

/-- Witness for C7 at a concrete input: moving the pick from figure 1's
mesh to figure 2's mesh emits the Deselect effects first. -/
theorem deselect_precedes_select_witness :
    ([exMeshB].getLast? = some exMeshB ∧
      exSelectedA.selected = some exMeshA ∧
      exMeshB ≠ exMeshA ∧
      exSelectedA.muralData = some exMural) ∧
    (update exSelectedA [exMeshB]).effects =
      [Effect.setOpacity exMeshA 0, Effect.displayCaption false] ++
        selectEffects exMeshB (findFigureLoop exMural.figures exMeshB.name) :=
  ⟨⟨by decide, by decide, by decide, by decide⟩,
    deselect_precedes_select exSelectedA [exMeshB] exMeshB exMeshA exMural
      (by decide) (by decide) (by decide) (by decide)⟩

/-- Claim C9: resolving a tag against the loaded mural returns the
first figure, in order, whose tag matches exactly, and `null` when no
figure matches; a miss is non-fatal — the frame update raises no
exception, shows no caption, still selects the pick and still applies
its highlight. -/
theorem figure_lookup_first_match_miss_nonfatal (s : AppState)
    (md : MuralData) (hmd : s.muralData = some md) (tag : String) :
    findFigure s tag = Except.ok (findFigureLoop md.figures tag) ∧
    (∀ f, findFigureLoop md.figures tag = some f →
        f.tag = tag ∧
          ∃ pre post, md.figures = pre ++ f :: post ∧
            ∀ g ∈ pre, g.tag ≠ tag) ∧
    (findFigureLoop md.figures tag = none ↔ ∀ g ∈ md.figures, g.tag ≠ tag) ∧
    (∀ l pick, l.getLast? = some pick → some pick ≠ s.selected →
        findFigureLoop md.figures pick.name = none →
          (update s l).error = none ∧
          (update s l).state.captionVisible = false ∧
          (update s l).state.selected = some pick ∧
          Effect.setOpacity pick opacitySelected ∈ (update s l).effects) := by
  refine ⟨by simp [findFigure, hmd], findFigureLoop_eq_some md.figures tag,
    findFigureLoop_eq_none md.figures tag, ?_⟩
  intro l pick hl hne hfd
  obtain ⟨heff, herr, hsel, hcap, _, _⟩ :=
    update_change_spec s l pick md hl hne hmd
  refine ⟨herr, ?_, hsel, ?_⟩
  · rw [hcap, hfd, Option.isSome_none]
  · rw [heff, hfd]
    simp [selectEffects]

/-- Witness for C9 at a concrete input: the tag `ghost` hits no figure,
and picking a mesh named `ghost` neither throws nor shows a caption but
still highlights the mesh. -/
theorem figure_lookup_first_match_miss_nonfatal_witness :
    (exLoaded.muralData = some exMural ∧
      [Mesh.mk 11 "ghost"].getLast? = some (Mesh.mk 11 "ghost") ∧
      some (Mesh.mk 11 "ghost") ≠ exLoaded.selected ∧
      findFigureLoop exMural.figures "ghost" = none) ∧
    ((update exLoaded [Mesh.mk 11 "ghost"]).error = none ∧
      (update exLoaded [Mesh.mk 11 "ghost"]).state.captionVisible = false ∧
      (update exLoaded [Mesh.mk 11 "ghost"]).state.selected = some (Mesh.mk 11 "ghost") ∧
      Effect.setOpacity (Mesh.mk 11 "ghost") opacitySelected ∈
        (update exLoaded [Mesh.mk 11 "ghost"]).effects) :=
  ⟨⟨by decide, by decide, by decide, by decide⟩,
    (figure_lookup_first_match_miss_nonfatal exLoaded exMural (by decide)
        "ghost").2.2.2 [Mesh.mk 11 "ghost"] (Mesh.mk 11 "ghost") (by decide)
      (by decide) (by decide)⟩

/-- Claim C10: selection identity is scene-object identity, not tag
string equality — a pick that is a different mesh object (different
THREE id) whose name equals the selected mesh's name still gets the
full Deselect-then-Select treatment. -/
theorem selection_identity_not_name (s : AppState) (l : List Mesh)
    (pick old : Mesh) (md : MuralData) (h : l.getLast? = some pick)
    (hold : s.selected = some old) (hid : pick.id ≠ old.id)
    (_hname : pick.name = old.name) (hmd : s.muralData = some md) :
    (update s l).state.selected = some pick ∧
    (update s l).effects =
      [Effect.setOpacity old 0, Effect.displayCaption false] ++
        selectEffects pick (findFigureLoop md.figures pick.name) := by
  have hne2 : some pick ≠ s.selected := by
    rw [hold]
    exact fun hcon => hid (congrArg Mesh.id (Option.some.inj hcon))
  have hspec := update_change_spec s l pick md h hne2 hmd
  exact ⟨hspec.2.2.1,
    by rw [hspec.1, deselect_effects_of_selected s old hold]⟩

/-- Witness for C10 at a concrete input: a fresh mesh with the same
name `fig1` as the selected one still triggers Deselect then Select. -/
theorem selection_identity_not_name_witness :
    ([exMeshA2].getLast? = some exMeshA2 ∧
      exSelectedA.selected = some exMeshA ∧
      exMeshA2.id ≠ exMeshA.id ∧
      exMeshA2.name = exMeshA.name ∧
      exSelectedA.muralData = some exMural) ∧
    ((update exSelectedA [exMeshA2]).state.selected = some exMeshA2 ∧
      (update exSelectedA [exMeshA2]).effects =
        [Effect.setOpacity exMeshA 0, Effect.displayCaption false] ++
          selectEffects exMeshA2 (findFigureLoop exMural.figures exMeshA2.name)) :=
  ⟨⟨by decide, by decide, by decide, by decide, by decide⟩,
    selection_identity_not_name exSelectedA [exMeshA2] exMeshA2 exMeshA
      exMural (by decide) (by decide) (by decide) (by decide) (by decide)⟩

end MuralScan
